import Mathlib

/-!
Shallow embedding of the job-result normalization pipeline of the
`dotku/job-xiaomi` repository, as implemented (near-identically) in

  * `sample-query.py`     — `print_job_results`
  * `xiaomi_jobs_mcp.py`  — `format_job_results`
  * `fastapi_wrapper.py`  — `search_jobs_internal`
  * `google_a2a_sample.py` — `XiaomiJobsA2AAgent._extract_locations`

The raw API response is a JSON document; we model JSON values by `JValue`
and Python's dynamic operations (`dict.get`, truthiness, `in`, `str()`,
`len`, iteration, string slicing) by explicit functions on `JValue`.
A Python operation that would raise an exception (KeyError on `d[k]`,
TypeError on `"k" in 5`, AttributeError on `.get` of a non-dict, ...)
is modelled by `Option`: `none` means "raises", `some` means the value.
-/

/-- JSON values as delivered by `response.json()`.  Numbers are modelled as
integers (the response fields exercised here — `code`, `count` — are
integral). -/
inductive JValue where
  | jnull : JValue
  | jbool : Bool → JValue
  | jnum : Int → JValue
  | jstr : String → JValue
  | jarr : List JValue → JValue
  | jobj : List (String × JValue) → JValue

/-- A single-quote character as a string (Python repr quotes). -/
def pyQuote : String := String.singleton '\x27'

/-- First-match association-list lookup: Python `d[k]` / `d.get(k)` on a dict
(JSON objects have unique keys, so first match is the value). -/
def lookupKey (fs : List (String × JValue)) (k : String) : Option JValue :=
  match fs with
  | [] => none
  | (k2, v) :: rest => if k2 == k then some v else lookupKey rest k

/-- Python truthiness of a value (`if x:`): `None`, `False`, `0`, `""`,
`[]`, `{}` are falsy, everything else truthy. -/
def pyTruthy : JValue → Bool
  | .jnull => false
  | .jbool b => b
  | .jnum n => n != 0
  | .jstr s => s != ""
  | .jarr xs => !xs.isEmpty
  | .jobj fs => !fs.isEmpty

/-- Truthiness of `d.get(k)`: a missing key yields `None`, which is falsy. -/
def truthyOpt : Option JValue → Bool
  | none => false
  | some v => pyTruthy v

/-- Python `v == n` for an integer literal `n`: numbers compare numerically,
booleans are integers (`True == 1`, `False == 0`), every other type is
unequal to an int. -/
def pyEqInt (v : JValue) (n : Int) : Bool :=
  match v with
  | .jnum m => m == n
  | .jbool b => (if b then (1 : Int) else 0) == n
  | _ => false

/-- Python `d.get("code") != 0`: a missing key reads as `None`, which is
not equal to `0`. -/
def pyNeZero (v : Option JValue) : Bool :=
  match v with
  | none => true
  | some v => !(pyEqInt v 0)

mutual

/-- Python `repr(v)` restricted to the values of our model (string escaping
inside quotes is elided; no claim input contains quotes). -/
def pyRepr : JValue → String
  | .jnull => "None"
  | .jbool true => "True"
  | .jbool false => "False"
  | .jnum n => toString n
  | .jstr s => pyQuote ++ s ++ pyQuote
  | .jarr xs => "[" ++ String.intercalate ", " (pyReprList xs) ++ "]"
  | .jobj fs => "\x7b" ++ String.intercalate ", " (pyReprFields fs) ++ "\x7d"

/-- `repr` of the elements of a list. -/
def pyReprList : List JValue → List String
  | [] => []
  | v :: vs => pyRepr v :: pyReprList vs

/-- `repr` of the entries of a dict. -/
def pyReprFields : List (String × JValue) → List String
  | [] => []
  | (k, v) :: fvs => (pyQuote ++ k ++ pyQuote ++ ": " ++ pyRepr v) :: pyReprFields fvs

end

/-- Python `str(v)`: the string itself for a string, `repr` rendering for
containers, `None`/`True`/`False`/digits otherwise. -/
def pyStr : JValue → String
  | .jstr s => s
  | v => pyRepr v

/-- Boolean list-prefix test on characters. -/
def isPrefixOfB : List Char → List Char → Bool
  | [], _ => true
  | _ :: _, [] => false
  | c :: cs, d :: ds => c == d && isPrefixOfB cs ds

/-- Does `needle` occur as a contiguous run of `hay`? -/
def substrAux (needle : List Char) : List Char → Bool
  | [] => isPrefixOfB needle []
  | c :: cs => isPrefixOfB needle (c :: cs) || substrAux needle cs

/-- Python substring test `needle in hay` for strings. -/
def containsSubstr (hay needle : String) : Bool :=
  substrAux needle.data hay.data

/-- Python `k in v` for a string key `k`: key membership on a dict,
element membership on a list (a string equals only an equal string),
substring test on a string; `TypeError` (`none`) otherwise. -/
def pyContains (v : JValue) (k : String) : Option Bool :=
  match v with
  | .jobj fs => some (lookupKey fs k).isSome
  | .jarr xs => some (xs.any (fun x => match x with
      | .jstr s => s == k
      | _ => false))
  | .jstr s => some (containsSubstr s k)
  | _ => none

/-- Python subscript `v[k]` with a string key: dict lookup (`KeyError` and
`TypeError` both modelled as `none`). -/
def pyIndex (v : JValue) (k : String) : Option JValue :=
  match v with
  | .jobj fs => lookupKey fs k
  | _ => none

/-- Python `v.get(k)`: `none` when `v` is not a dict (`AttributeError`),
otherwise the lookup result (which is itself optional). -/
def pyDictGet (v : JValue) (k : String) : Option (Option JValue) :=
  match v with
  | .jobj fs => some (lookupKey fs k)
  | _ => none

/-- Python `len(v)`: characters of a string, elements of a list, keys of a
dict; `TypeError` (`none`) otherwise. -/
def pyLen : JValue → Option Nat
  | .jstr s => some s.length
  | .jarr xs => some xs.length
  | .jobj fs => some fs.length
  | _ => none

/-- Python iteration `for x in v`: elements of a list, characters of a
string, keys of a dict; `TypeError` (`none`) otherwise. -/
def pyIter : JValue → Option (List JValue)
  | .jarr xs => some xs
  | .jstr s => some (s.data.map (fun c => .jstr (String.singleton c)))
  | .jobj fs => some (fs.map (fun kv => .jstr kv.1))
  | _ => none

/-- Whitespace characters stripped by Python `str.strip()` (ASCII range;
the inputs here contain only spaces, tabs, newlines, carriage returns). -/
def isPySpace (c : Char) : Bool :=
  c == ' ' || c == '\t' || c == '\n' || c == '\r' || c == '\x0b' || c == '\x0c'

/-- `text.replace(chr(10), " ").replace(chr(13), " ").strip()` — the cleaning
step applied to `description` / `requirement` in `print_job_results`
(`sample-query.py` lines 188, 195) and `format_job_results`
(`xiaomi_jobs_mcp.py` lines 117, 122). -/
def cleanText (s : String) : String :=
  let mapped := s.data.map (fun c => if c == '\n' || c == '\r' then ' ' else c)
  String.mk (((mapped.dropWhile isPySpace).reverse.dropWhile isPySpace).reverse)

/-- `clean[:bound] + "..." if len(clean) > bound else clean` — the preview
truncation of `sample-query.py` lines 189/196 and `xiaomi_jobs_mcp.py`
lines 118/123 (`bound` is 150 for descriptions, 100 for requirements). -/
def previewText (bound : Nat) (c : String) : String :=
  if c.length > bound then String.mk (c.data.take bound) ++ "..." else c

/-- The `description`/`requirement` handling of one job in
`print_job_results` / `format_job_results`: read the field with default
`""`; when truthy, clean and truncate (raising — `none` — if the truthy
value is not a string, since `.replace` would fail); when falsy, no
preview line is produced (`some none`). -/
def previewOf (fs : List (String × JValue)) (key : String) (bound : Nat) :
    Option (Option String) :=
  let v := (lookupKey fs key).getD (.jstr "")
  if pyTruthy v then
    match v with
    | .jstr s => some (some (previewText bound (cleanText s)))
    | _ => none
  else some none

/-- Single-location extraction: `city.get("name", str(city))` when the
element is a dict, `str(city)` otherwise (`sample-query.py` lines 163-166,
169-172; identical in the other files). -/
def locOf : JValue → JValue
  | .jobj cf => (lookupKey cf "name").getD (.jstr (pyStr (.jobj cf)))
  | v => .jstr (pyStr v)

/-- Location extraction shared verbatim by `print_job_results`
(`sample-query.py` lines 160-172), `format_job_results`
(`xiaomi_jobs_mcp.py` lines 96-108), `search_jobs_internal`
(`fastapi_wrapper.py` lines 192-204) and
`XiaomiJobsA2AAgent._extract_locations` (`google_a2a_sample.py` lines
362-379): if `job.get("city_info")` is truthy take it as one location,
elif `job.get("city_list")` is truthy iterate it, else no locations. -/
def extractLocations (fs : List (String × JValue)) : Option (List JValue) :=
  if truthyOpt (lookupKey fs "city_info") then
    match lookupKey fs "city_info" with
    | some ci => some [locOf ci]
    | none => none
  else if truthyOpt (lookupKey fs "city_list") then
    match lookupKey fs "city_list" with
    | some cl =>
      match pyIter cl with
      | some xs => some (xs.map locOf)
      | none => none
    | none => none
  else some []

/-- All-strings view of a location list; `none` models the `TypeError` that
`", ".join(locations)` raises on a non-string element. -/
def asStrList : List JValue → Option (List String)
  | [] => some []
  | .jstr s :: rest => (asStrList rest).map (fun l => s :: l)
  | _ :: _ => none

/-- `", ".join(locations) if locations else "N/A"` (`sample-query.py`
line 174, `xiaomi_jobs_mcp.py` line 110). -/
def joinLocs (locs : List JValue) : Option String :=
  if locs.isEmpty then some "N/A"
  else (asStrList locs).map (String.intercalate ", ")

/-- The fixed URL scheme head shared by all files. -/
def urlHead : String := "https://xiaomi.jobs.f.mioffice.cn/index/position/"

/-- The f-string
`https://xiaomi.jobs.f.mioffice.cn/index/position/{job.get("id", "")}/detail`
(`sample-query.py` lines 182-183, `xiaomi_jobs_mcp.py` line 113,
`fastapi_wrapper.py` line 188). -/
def detailUrlOf (fs : List (String × JValue)) : String :=
  urlHead ++ pyStr ((lookupKey fs "id").getD (.jstr "")) ++ "/detail"

/-- One display-ready job record as produced per entry by
`print_job_results` / `format_job_results`: each field records exactly
what the corresponding source line prints, with missing-field defaults
applied. -/
structure Record where
  title : JValue
  code : JValue
  locations : List JValue
  locationStr : String
  recruitType : JValue
  detailUrl : String
  descPreview : Option String
  reqPreview : Option String

/-- Per-job body of the result loop, shared by `print_job_results`
(`sample-query.py` lines 155-199) and `format_job_results`
(`xiaomi_jobs_mcp.py` lines 91-126); `none` models an exception
(e.g. `job.get` on a non-dict entry, `", ".join` over non-strings). -/
def normalizeJob (j : JValue) : Option Record :=
  match j with
  | .jobj fs =>
    match extractLocations fs with
    | none => none
    | some locs =>
      match joinLocs locs with
      | none => none
      | some locStr =>
        match previewOf fs "description" 150, previewOf fs "requirement" 100 with
        | some dp, some rp =>
          some { title := (lookupKey fs "title").getD (.jstr "N/A")
                 code := (lookupKey fs "code").getD (.jstr "N/A")
                 locations := locs
                 locationStr := locStr
                 recruitType := (lookupKey fs "recruit_type").getD (.jstr "N/A")
                 detailUrl := detailUrlOf fs
                 descPreview := dp
                 reqPreview := rp }
        | _, _ => none
  | _ => none

/-- Outcome of one normalization run: a reported failure line, or a success
carrying the reported total count (a raw JSON value, as the source
interpolates it unconverted) and the normalized records. -/
inductive Outcome where
  | failure : String → Outcome
  | success : JValue → List Record → Outcome

/-- Failure report of `print_job_results` for a missing `data` key
(`sample-query.py` line 135). -/
def noDataMsg : String :=
  "❌ No " ++ pyQuote ++ "data" ++ pyQuote ++ " key found in response"

/-- Failure report of `print_job_results` for a missing `job_post_list` key
(`sample-query.py` line 141). -/
def noJplMsg : String :=
  "❌ No " ++ pyQuote ++ "job_post_list" ++ pyQuote ++ " key found in data section"

/-- Merged failure report of `format_job_results` for a missing `data` or
`job_post_list` key (`xiaomi_jobs_mcp.py` line 81). -/
def noJobDataMsg : String := "❌ No job data found in response"

/-- `print_job_results(data)` from `sample-query.py` lines 117-199, with the
printed error lines as `Outcome.failure` and the printed result listing as
`Outcome.success total records`; `none` models an uncaught exception.
Branches, line by line: the transport-error check (125), the
`code != 0` check (130), the `"data" not in data` check (134), the
`"job_post_list" not in data_section` check (140), `count` aggregation
(144-145), the empty-list early return (149-151), and the record loop
(155-199). -/
def printJobResults (j : JValue) : Option Outcome :=
  match j with
  | .jobj fs =>
    if truthyOpt (lookupKey fs "error") then
      match lookupKey fs "error" with
      | some v => some (.failure ("❌ Error: " ++ pyStr v))
      | none => none
    else if pyNeZero (lookupKey fs "code") then
      some (.failure ("❌ API Error: " ++
        pyStr ((lookupKey fs "message").getD (.jstr "Unknown error"))))
    else if (lookupKey fs "data").isNone then
      some (.failure noDataMsg)
    else
      match lookupKey fs "data" with
      | none => none
      | some dsec =>
        match pyContains dsec "job_post_list" with
        | none => none
        | some false => some (.failure noJplMsg)
        | some true =>
          match pyIndex dsec "job_post_list", pyDictGet dsec "count" with
          | some jp, some cnt =>
            match pyLen jp with
            | none => none
            | some n =>
              let total := cnt.getD (.jnum (n : Int))
              if n == 0 then some (.success total [])
              else
                match pyIter jp with
                | none => none
                | some xs =>
                  match xs.mapM normalizeJob with
                  | none => none
                  | some recs => some (.success total recs)
          | _, _ => none
  | _ => none

/-- `format_job_results(data)` from `xiaomi_jobs_mcp.py` lines 72-128, with
the returned error strings as `Outcome.failure` and the returned listing as
`Outcome.success total records` (the empty-list message of line 87 is a
success with no records); `none` models an uncaught exception. The single
merged malformed-shape check `"data" not in data or "job_post_list" not in
data["data"]` is line 80. -/
def formatJobResults (j : JValue) : Option Outcome :=
  match j with
  | .jobj fs =>
    if truthyOpt (lookupKey fs "error") then
      match lookupKey fs "error" with
      | some v => some (.failure ("❌ Error: " ++ pyStr v))
      | none => none
    else if pyNeZero (lookupKey fs "code") then
      some (.failure ("❌ API Error: " ++
        pyStr ((lookupKey fs "message").getD (.jstr "Unknown error"))))
    else
      match lookupKey fs "data" with
      | none => some (.failure noJobDataMsg)
      | some dsec =>
        match pyContains dsec "job_post_list" with
        | none => none
        | some false => some (.failure noJobDataMsg)
        | some true =>
          match pyIndex dsec "job_post_list", pyDictGet dsec "count" with
          | some jp, some cnt =>
            match pyLen jp with
            | none => none
            | some n =>
              let total := cnt.getD (.jnum (n : Int))
              if n == 0 then some (.success total [])
              else
                match pyIter jp with
                | none => none
                | some xs =>
                  match xs.mapM normalizeJob with
                  | none => none
                  | some recs => some (.success total recs)
          | _, _ => none
  | _ => none

/-- One formatted job dict built by `search_jobs_internal`
(`fastapi_wrapper.py` lines 181-206): raw fields default to `None`
(`jnull`), previews slice to 200 characters with an unconditional
ellipsis, and locations use the shared extraction. -/
structure FJob where
  id : JValue
  title : JValue
  code : JValue
  description : String
  requirements : String
  recruitType : JValue
  url : String
  locations : List JValue

/-- `job.get(key, "")[:200] + "..." if job.get(key, "") else ""` —
`fastapi_wrapper.py` lines 185-186; a truthy non-string value makes the
slice-and-concatenate raise (`none`). -/
def fPreview (fs : List (String × JValue)) (key : String) : Option String :=
  let v := (lookupKey fs key).getD (.jstr "")
  if pyTruthy v then
    match v with
    | .jstr s => some (String.mk (s.data.take 200) ++ "...")
    | _ => none
  else some ""

/-- The per-job dict of `search_jobs_internal` (`fastapi_wrapper.py`
lines 180-206). -/
def fJobOf (j : JValue) : Option FJob :=
  match j with
  | .jobj fs =>
    match fPreview fs "description", fPreview fs "requirement",
          extractLocations fs with
    | some d, some r, some locs =>
      some { id := (lookupKey fs "id").getD .jnull
             title := (lookupKey fs "title").getD .jnull
             code := (lookupKey fs "code").getD .jnull
             description := d
             requirements := r
             recruitType := (lookupKey fs "recruit_type").getD .jnull
             url := detailUrlOf fs
             locations := locs }
    | _, _, _ => none
  | _ => none

/-- Outcome of `search_jobs_internal`: a `JobSearchResponse` with
`success=False` carrying its `message` value, or `success=True` carrying
`total_count` and the formatted jobs. -/
inductive FOutcome where
  | failure : JValue → FOutcome
  | success : JValue → List FJob → FOutcome

/-- `search_jobs_internal` from `fastapi_wrapper.py` lines 145-215, applied
to the raw response `results`: the transport-error check (157), the
`code != 0` check with `message` defaulting to `"API error"` (165-171),
`data = results.get("data", {})`, `job_post_list` defaulting to `[]`,
`count` defaulting to `len(job_posts)` (174-176), and the job loop
(180-206). `none` models an exception (turned into HTTP 500 by the
surrounding `except`). -/
def searchJobsInternal (j : JValue) : Option FOutcome :=
  match j with
  | .jobj fs =>
    if truthyOpt (lookupKey fs "error") then
      match lookupKey fs "error" with
      | some v => some (.failure v)
      | none => none
    else if pyNeZero (lookupKey fs "code") then
      some (.failure ((lookupKey fs "message").getD (.jstr "API error")))
    else
      let dv := (lookupKey fs "data").getD (.jobj [])
      match pyDictGet dv "job_post_list" with
      | none => none
      | some jpl =>
        let jp := jpl.getD (.jarr [])
        match pyDictGet dv "count", pyLen jp, pyIter jp with
        | some cnt, some n, some xs =>
          match xs.mapM fJobOf with
          | some jobs => some (.success (cnt.getD (.jnum (n : Int))) jobs)
          | none => none
        | _, _, _ => none
  | _ => none

/-! Helper lemmas shared by the claim theorems. -/

/-- A truthy `d.get(k)` is in particular a present key. -/
theorem truthyOpt_eq_true (o : Option JValue) (h : truthyOpt o = true) :
    ∃ v, o = some v ∧ pyTruthy v = true := by
  cases o with
  | none => simp [truthyOpt] at h
  | some v => exact ⟨v, rfl, h⟩

/-- Length of a concatenation of strings. -/
theorem strLength_append (s t : String) :
    (s ++ t).length = s.length + t.length := String.length_append s t

/-- Length of a string built from a character list. -/
theorem strLength_mk (l : List Char) : (String.mk l).length = l.length := rfl

/-- Claim C7: with no error marker, `code` equal to 0, `data` present, and
`data.job_post_list` the empty list, both `print_job_results` and
`format_job_results` reach the success path with no records and a total
count of `data.count` when present, else 0 — not a failure. -/
theorem claim_C7_thm (fs ds : List (String × JValue))
    (herr : truthyOpt (lookupKey fs "error") = false)
    (hc : lookupKey fs "code" = some (.jnum 0))
    (hd : lookupKey fs "data" = some (.jobj ds))
    (hj : lookupKey ds "job_post_list" = some (.jarr [])) :
    printJobResults (.jobj fs) =
      some (.success ((lookupKey ds "count").getD (.jnum 0)) []) ∧
    formatJobResults (.jobj fs) =
      some (.success ((lookupKey ds "count").getD (.jnum 0)) []) := by
  constructor <;>
    simp [printJobResults, formatJobResults, herr, hc, hd, hj,
      pyNeZero, pyEqInt, pyContains, pyIndex, pyDictGet, pyLen]

/-- Witness for C7 at a concrete response with `count` 42 and an empty
`job_post_list`. -/
theorem claim_C7_wit :
    printJobResults (.jobj [("code", .jnum 0),
        ("data", .jobj [("count", .jnum 42), ("job_post_list", .jarr [])])]) =
      some (.success ((lookupKey [("count", JValue.jnum 42),
        ("job_post_list", JValue.jarr [])] "count").getD (.jnum 0)) []) ∧
    formatJobResults (.jobj [("code", .jnum 0),
        ("data", .jobj [("count", .jnum 42), ("job_post_list", .jarr [])])]) =
      some (.success ((lookupKey [("count", JValue.jnum 42),
        ("job_post_list", JValue.jarr [])] "count").getD (.jnum 0)) []) :=
  claim_C7_thm [("code", .jnum 0),
      ("data", .jobj [("count", .jnum 42), ("job_post_list", .jarr [])])]
    [("count", .jnum 42), ("job_post_list", .jarr [])] rfl rfl rfl rfl

/-- Claim C10: with no transport-error marker and no `code` key at all, the
missing key reads as `None`, which is not equal to 0, so all three
normalizations take the API-error failure branch — even when a well-formed
`data.job_post_list` is present, the input is never normalized into a
success. -/
theorem claim_C10_thm (fs : List (String × JValue))
    (herr : truthyOpt (lookupKey fs "error") = false)
    (hc : lookupKey fs "code" = none) :
    printJobResults (.jobj fs) = some (.failure ("❌ API Error: " ++
      pyStr ((lookupKey fs "message").getD (.jstr "Unknown error")))) ∧
    formatJobResults (.jobj fs) = some (.failure ("❌ API Error: " ++
      pyStr ((lookupKey fs "message").getD (.jstr "Unknown error")))) ∧
    searchJobsInternal (.jobj fs) =
      some (.failure ((lookupKey fs "message").getD (.jstr "API error"))) := by
  refine ⟨?_, ?_, ?_⟩ <;>
    simp [printJobResults, formatJobResults, searchJobsInternal,
      herr, hc, pyNeZero]

/-- Witness for C10: a response with a well-formed `data.job_post_list` but
no `code` key still lands in the API-error branch. -/
theorem claim_C10_wit :
    printJobResults (.jobj [("data", .jobj [("job_post_list", .jarr [])])]) =
      some (.failure ("❌ API Error: " ++
        pyStr ((lookupKey [("data", JValue.jobj [("job_post_list", JValue.jarr [])])]
          "message").getD (.jstr "Unknown error")))) ∧
    formatJobResults (.jobj [("data", .jobj [("job_post_list", .jarr [])])]) =
      some (.failure ("❌ API Error: " ++
        pyStr ((lookupKey [("data", JValue.jobj [("job_post_list", JValue.jarr [])])]
          "message").getD (.jstr "Unknown error")))) ∧
    searchJobsInternal (.jobj [("data", .jobj [("job_post_list", .jarr [])])]) =
      some (.failure ((lookupKey [("data", JValue.jobj [("job_post_list", JValue.jarr [])])]
        "message").getD (.jstr "API error"))) :=
  claim_C10_thm [("data", .jobj [("job_post_list", .jarr [])])] rfl rfl

/-- Claim C8: on any input document missing the `data` key, both
`print_job_results` and `format_job_results` report a failure and never
raise (the embedded functions return `some` of a failure outcome on every
branch reachable on this path). -/
theorem claim_C8_thm (fs : List (String × JValue))
    (h : lookupKey fs "data" = none) :
    (∃ m, printJobResults (.jobj fs) = some (.failure m)) ∧
    (∃ m, formatJobResults (.jobj fs) = some (.failure m)) := by
  constructor
  · cases herr : truthyOpt (lookupKey fs "error") with
    | true =>
        obtain ⟨v, hv, htv⟩ := truthyOpt_eq_true _ herr
        exact ⟨"❌ Error: " ++ pyStr v,
          by simp [printJobResults, hv, truthyOpt, htv]⟩
    | false =>
        cases hcode : pyNeZero (lookupKey fs "code") with
        | true =>
            exact ⟨"❌ API Error: " ++
                pyStr ((lookupKey fs "message").getD (.jstr "Unknown error")),
              by simp [printJobResults, herr, hcode]⟩
        | false =>
            exact ⟨noDataMsg, by simp [printJobResults, herr, hcode, h]⟩
  · cases herr : truthyOpt (lookupKey fs "error") with
    | true =>
        obtain ⟨v, hv, htv⟩ := truthyOpt_eq_true _ herr
        exact ⟨"❌ Error: " ++ pyStr v,
          by simp [formatJobResults, hv, truthyOpt, htv]⟩
    | false =>
        cases hcode : pyNeZero (lookupKey fs "code") with
        | true =>
            exact ⟨"❌ API Error: " ++
                pyStr ((lookupKey fs "message").getD (.jstr "Unknown error")),
              by simp [formatJobResults, herr, hcode]⟩
        | false =>
            exact ⟨noJobDataMsg, by simp [formatJobResults, herr, hcode, h]⟩

/-- Witness for C8 at the concrete input `{"code": 5}`. -/
theorem claim_C8_wit :
    (∃ m, printJobResults (.jobj [("code", .jnum 5)]) = some (.failure m)) ∧
    (∃ m, formatJobResults (.jobj [("code", .jnum 5)]) = some (.failure m)) :=
  claim_C8_thm [("code", .jnum 5)] rfl

/-- Claim C1 (amended): with no error marker and `code` equal to 0, a
missing `data` key and a present-`data`-but-missing-`job_post_list` key
each yield a Failure in both functions; in `print_job_results` the two
failure reports are distinct, naming the respective missing key, while in
`format_job_results` the two conditions are merged into the single generic
report of `noJobDataMsg`. -/
theorem claim_C1_thm (fs : List (String × JValue))
    (herr : truthyOpt (lookupKey fs "error") = false)
    (hcode : pyNeZero (lookupKey fs "code") = false) :
    (lookupKey fs "data" = none →
      printJobResults (.jobj fs) = some (.failure noDataMsg) ∧
      formatJobResults (.jobj fs) = some (.failure noJobDataMsg)) ∧
    (∀ ds, lookupKey fs "data" = some (.jobj ds) →
      lookupKey ds "job_post_list" = none →
      printJobResults (.jobj fs) = some (.failure noJplMsg) ∧
      formatJobResults (.jobj fs) = some (.failure noJobDataMsg)) ∧
    noDataMsg ≠ noJplMsg := by
  refine ⟨fun h => ⟨?_, ?_⟩, fun ds hd hj => ⟨?_, ?_⟩, by decide⟩
  · simp [printJobResults, herr, hcode, h]
  · simp [formatJobResults, herr, hcode, h]
  · simp [printJobResults, herr, hcode, hd, pyContains, pyIndex, hj]
  · simp [formatJobResults, herr, hcode, hd, pyContains, pyIndex, hj]

/-- Counterexample to claim C1 as stated: in `format_job_results` (cited by
the claim) the two malformed-shape conditions are merged — the response
missing `data` and the response whose `data` lacks `job_post_list` produce
the identical generic failure report, naming neither key. -/
theorem claim_C1_cex :
    formatJobResults (.jobj [("code", .jnum 0)]) =
      formatJobResults (.jobj [("code", .jnum 0), ("data", .jobj [])]) ∧
    formatJobResults (.jobj [("code", .jnum 0)]) =
      some (.failure noJobDataMsg) := ⟨rfl, rfl⟩

/-- Witness for C1 at the concrete input `{"code": 0}`. -/
theorem claim_C1_wit :
    printJobResults (.jobj [("code", .jnum 0)]) = some (.failure noDataMsg) ∧
    formatJobResults (.jobj [("code", .jnum 0)]) =
      some (.failure noJobDataMsg) :=
  (claim_C1_thm [("code", .jnum 0)] rfl rfl).1 rfl

/-- Claim C2 (amended): with no error marker and a present `code` unequal
to 0, `search_jobs_internal` fails carrying exactly the supplied `message`,
and exactly the string `"API error"` when `message` is absent; but
`print_job_results` reports `"❌ API Error: "` followed by the message,
with the default `"Unknown error"` — not `"API error"` — when `message`
is absent. -/
theorem claim_C2_thm (fs : List (String × JValue))
    (herr : truthyOpt (lookupKey fs "error") = false)
    (c : JValue) (hc : lookupKey fs "code" = some c)
    (hz : pyEqInt c 0 = false) :
    (lookupKey fs "message" = none →
      printJobResults (.jobj fs) =
        some (.failure "❌ API Error: Unknown error") ∧
      searchJobsInternal (.jobj fs) = some (.failure (.jstr "API error"))) ∧
    (∀ m, lookupKey fs "message" = some m →
      printJobResults (.jobj fs) =
        some (.failure ("❌ API Error: " ++ pyStr m)) ∧
      searchJobsInternal (.jobj fs) = some (.failure m)) := by
  have hnz : pyNeZero (lookupKey fs "code") = true := by
    simp [pyNeZero, hc, hz]
  refine ⟨fun h => ⟨?_, ?_⟩, fun m hm => ⟨?_, ?_⟩⟩
  · simp [printJobResults, herr, hnz, h, pyStr, pyRepr]
  · simp [searchJobsInternal, herr, hnz, h]
  · simp [printJobResults, herr, hnz, hm]
  · simp [searchJobsInternal, herr, hnz, hm]

/-- Counterexample to claim C2 as stated: at the concrete input
`{"code": 1}` (no error marker, `code` present and nonzero, `message`
absent), `print_job_results` — cited by the claim — reports
`"❌ API Error: Unknown error"`, which does not carry the string
`"API error"` at all. -/
theorem claim_C2_cex :
    printJobResults (.jobj [("code", .jnum 1)]) =
      some (.failure "❌ API Error: Unknown error") ∧
    containsSubstr "❌ API Error: Unknown error" "API error" = false ∧
    "❌ API Error: Unknown error" ≠ "API error" := ⟨rfl, rfl, by decide⟩

/-- Witness for C2 at the concrete input `{"code": 7, "message": "boom"}`. -/
theorem claim_C2_wit :
    printJobResults (.jobj [("code", .jnum 7), ("message", .jstr "boom")]) =
      some (.failure ("❌ API Error: " ++ pyStr (.jstr "boom"))) ∧
    searchJobsInternal (.jobj [("code", .jnum 7), ("message", .jstr "boom")]) =
      some (.failure (.jstr "boom")) :=
  (claim_C2_thm [("code", .jnum 7), ("message", .jstr "boom")] rfl
    (.jnum 7) rfl rfl).2 (.jstr "boom") rfl

/-- Claim C3: for a source text field whose cleaned form has length `L`,
the preview equals the cleaned string when `L ≤ bound`, equals its first
`bound` characters followed by `"..."` when `L > bound`, and never exceeds
`bound + 3` characters; and the per-job handling applies exactly this with
bound 150 to `description` and bound 100 to `requirement`. -/
theorem claim_C3_thm (s : String) (b : Nat) :
    ((cleanText s).length ≤ b → previewText b (cleanText s) = cleanText s) ∧
    (b < (cleanText s).length →
      previewText b (cleanText s) =
        String.mk ((cleanText s).data.take b) ++ "...") ∧
    (previewText b (cleanText s)).length ≤ b + 3 ∧
    (∀ fs t, lookupKey fs "description" = some (.jstr t) → t ≠ "" →
      previewOf fs "description" 150 =
        some (some (previewText 150 (cleanText t)))) ∧
    (∀ fs t, lookupKey fs "requirement" = some (.jstr t) → t ≠ "" →
      previewOf fs "requirement" 100 =
        some (some (previewText 100 (cleanText t)))) := by
  refine ⟨fun h => ?_, fun h => ?_, ?_, fun fs t ht hne => ?_, fun fs t ht hne => ?_⟩
  · rw [previewText, if_neg (by omega)]
  · rw [previewText, if_pos (by omega)]
  · have hdl : (cleanText s).length = (cleanText s).data.length := rfl
    by_cases hlt : b < (cleanText s).length
    · rw [previewText, if_pos (by omega), strLength_append, strLength_mk,
        List.length_take]
      have h3 : ("..." : String).length = 3 := rfl
      omega
    · rw [previewText, if_neg (by omega)]
      omega
  · simp [previewOf, ht, pyTruthy, hne]
  · simp [previewOf, ht, pyTruthy, hne]

set_option maxRecDepth 4000 in
/-- Witness for C3 at a 200-character description: the cleaned text
exceeds 150 characters, so the preview is its first 150 characters plus
the ellipsis. -/
theorem claim_C3_wit :
    previewText 150 (cleanText (String.mk (List.replicate 200 'A'))) =
      String.mk ((cleanText (String.mk (List.replicate 200 'A'))).data.take 150)
        ++ "..." :=
  (claim_C3_thm (String.mk (List.replicate 200 'A')) 150).2.1 (by decide)

/-- Claim C4 (amended): location extraction takes `city_info` as the single
location when it is present AND truthy (Python `job.get("city_info")`),
falling through to `city_list` otherwise; a truthy `city_list` is mapped
element-wise in order; when neither key is present (or both values are
falsy) the result is empty. A dict element contributes its `name` value,
falling back to its `str` form when `name` is absent; a plain string
contributes itself. The claim's concrete examples hold as stated. -/
theorem claim_C4_thm (fs : List (String × JValue)) :
    (∀ ci, lookupKey fs "city_info" = some ci → pyTruthy ci = true →
      extractLocations fs = some [locOf ci]) ∧
    (truthyOpt (lookupKey fs "city_info") = false →
      ∀ xs, lookupKey fs "city_list" = some (.jarr xs) → xs ≠ [] →
      extractLocations fs = some (xs.map locOf)) ∧
    (truthyOpt (lookupKey fs "city_info") = false →
      truthyOpt (lookupKey fs "city_list") = false →
      extractLocations fs = some []) ∧
    (∀ cf v, lookupKey cf "name" = some v → locOf (.jobj cf) = v) ∧
    (∀ cf, lookupKey cf "name" = none →
      locOf (.jobj cf) = .jstr (pyStr (.jobj cf))) ∧
    (∀ t, locOf (.jstr t) = .jstr t) ∧
    extractLocations [("city_info", .jobj [("name", .jstr "Beijing")])] =
      some [.jstr "Beijing"] ∧
    extractLocations [("city_list",
        .jarr [.jobj [("name", .jstr "A")], .jobj [("name", .jstr "B")]])] =
      some [.jstr "A", .jstr "B"] ∧
    extractLocations [] = some [] := by
  refine ⟨fun ci hci htci => ?_, fun hni xs hcl hne => ?_, fun h1 h2 => ?_,
    fun cf v h => ?_, fun cf h => ?_, fun t => rfl, rfl, rfl, rfl⟩
  · simp [extractLocations, truthyOpt, hci, htci]
  · cases xs with
    | nil => exact absurd rfl hne
    | cons y ys =>
        rw [extractLocations, if_neg (by simp [hni]),
          if_pos (by simp [hcl, truthyOpt, pyTruthy])]
        simp [hcl, pyIter]
  · simp [extractLocations, h1, h2]
  · simp [locOf, h]
  · simp [locOf, h]

/-- Counterexample to claim C4 as stated: `city_info` present as the empty
string `""` is a present key, so the claim requires the single-element
sequence `[""]`; the code tests truthiness, falls through, and yields the
empty sequence. -/
theorem claim_C4_cex :
    extractLocations [("city_info", .jstr "")] = some [] ∧
    some ([] : List JValue) ≠ some [JValue.jstr ""] := by
  refine ⟨rfl, by simp⟩

/-- Witness for C4 at the claim's own example `city_info = {"name":
"Beijing"}`. -/
theorem claim_C4_wit :
    extractLocations [("city_info", .jobj [("name", .jstr "Beijing")])] =
      some [locOf (.jobj [("name", .jstr "Beijing")])] :=
  (claim_C4_thm [("city_info", .jobj [("name", .jstr "Beijing")])]).1
    (.jobj [("name", .jstr "Beijing")]) rfl rfl

/-- Claim C5: the detail URL is the fixed scheme head, then the `id` field
(the empty string when `id` is absent), then `"/detail"`; the claim's
concrete example holds, and every normalized record carries exactly this
URL. -/
theorem claim_C5_thm :
    (∀ fs s, lookupKey fs "id" = some (.jstr s) →
      detailUrlOf fs = urlHead ++ s ++ "/detail") ∧
    (∀ fs, lookupKey fs "id" = none →
      detailUrlOf fs = urlHead ++ "" ++ "/detail") ∧
    urlHead = "https://xiaomi.jobs.f.mioffice.cn/index/position/" ∧
    detailUrlOf [("id", .jstr "12345")] =
      "https://xiaomi.jobs.f.mioffice.cn/index/position/12345/detail" ∧
    (∀ fs r, normalizeJob (.jobj fs) = some r → r.detailUrl = detailUrlOf fs) := by
  refine ⟨fun fs s h => ?_, fun fs h => ?_, rfl, by decide, fun fs r h => ?_⟩
  · simp [detailUrlOf, h, pyStr]
  · simp [detailUrlOf, h, pyStr]
  · simp only [normalizeJob] at h
    repeat' split at h
    all_goals first
      | exact (Option.noConfusion h)
      | (injection h with h2; rw [← h2])

/-- Witness for C5 at the claim's own example `id = "12345"`. -/
theorem claim_C5_wit :
    detailUrlOf [("id", .jstr "12345")] = urlHead ++ "12345" ++ "/detail" :=
  claim_C5_thm.1 [("id", .jstr "12345")] "12345" rfl

/-- Claim C9: the embedded normalizations are pure functions of their
input — two invocations on the same document are identical. -/
theorem claim_C9_thm (x : JValue) :
    printJobResults x = printJobResults x ∧
    formatJobResults x = formatJobResults x ∧
    searchJobsInternal x = searchJobsInternal x := ⟨rfl, rfl, rfl⟩

/-- Claim C6: whenever a normalization run succeeds on a response whose
`data` is an object carrying a `job_post_list` list, the reported total
count is `data.count` when the `count` key is present, and otherwise the
number of entries of `data.job_post_list` — for all three embedded
functions. -/
theorem claim_C6_thm :
    (∀ fs ds ps t recs,
      lookupKey fs "data" = some (.jobj ds) →
      lookupKey ds "job_post_list" = some (.jarr ps) →
      printJobResults (.jobj fs) = some (.success t recs) →
      t = (lookupKey ds "count").getD (.jnum (ps.length : Int))) ∧
    (∀ fs ds ps t recs,
      lookupKey fs "data" = some (.jobj ds) →
      lookupKey ds "job_post_list" = some (.jarr ps) →
      formatJobResults (.jobj fs) = some (.success t recs) →
      t = (lookupKey ds "count").getD (.jnum (ps.length : Int))) ∧
    (∀ fs ds ps t jobs,
      lookupKey fs "data" = some (.jobj ds) →
      lookupKey ds "job_post_list" = some (.jarr ps) →
      searchJobsInternal (.jobj fs) = some (.success t jobs) →
      t = (lookupKey ds "count").getD (.jnum (ps.length : Int))) := by
  refine ⟨fun fs ds ps t recs hd hj h => ?_,
    fun fs ds ps t recs hd hj h => ?_,
    fun fs ds ps t jobs hd hj h => ?_⟩
  · simp only [printJobResults] at h
    by_cases herr : truthyOpt (lookupKey fs "error") = true
    · rw [if_pos herr] at h
      cases he : lookupKey fs "error" with
      | none => simp [he] at h
      | some v => simp [he] at h
    · rw [if_neg herr] at h
      by_cases hcode : pyNeZero (lookupKey fs "code") = true
      · rw [if_pos hcode] at h
        simp at h
      · rw [if_neg hcode] at h
        simp only [hd, hj, Option.isNone_some, pyContains, pyIndex, pyDictGet,
          pyLen, Option.isSome_some, if_false, Bool.false_eq_true] at h
        by_cases hn : (ps.length == 0) = true
        · rw [if_pos hn] at h
          simp only [Option.some.injEq, Outcome.success.injEq] at h
          exact h.1.symm
        · rw [if_neg hn] at h
          simp only [pyIter] at h
          cases hm : ps.mapM normalizeJob with
          | none => rw [hm] at h; simp at h
          | some rs =>
              rw [hm] at h
              simp only [Option.some.injEq, Outcome.success.injEq] at h
              exact h.1.symm
  · simp only [formatJobResults] at h
    by_cases herr : truthyOpt (lookupKey fs "error") = true
    · rw [if_pos herr] at h
      cases he : lookupKey fs "error" with
      | none => simp [he] at h
      | some v => simp [he] at h
    · rw [if_neg herr] at h
      by_cases hcode : pyNeZero (lookupKey fs "code") = true
      · rw [if_pos hcode] at h
        simp at h
      · rw [if_neg hcode] at h
        simp only [hd, hj, pyContains, pyIndex, pyDictGet, pyLen,
          Option.isSome_some, if_false, Bool.false_eq_true] at h
        by_cases hn : (ps.length == 0) = true
        · rw [if_pos hn] at h
          simp only [Option.some.injEq, Outcome.success.injEq] at h
          exact h.1.symm
        · rw [if_neg hn] at h
          simp only [pyIter] at h
          cases hm : ps.mapM normalizeJob with
          | none => rw [hm] at h; simp at h
          | some rs =>
              rw [hm] at h
              simp only [Option.some.injEq, Outcome.success.injEq] at h
              exact h.1.symm
  · simp only [searchJobsInternal] at h
    by_cases herr : truthyOpt (lookupKey fs "error") = true
    · rw [if_pos herr] at h
      cases he : lookupKey fs "error" with
      | none => simp [he] at h
      | some v => simp [he] at h
    · rw [if_neg herr] at h
      by_cases hcode : pyNeZero (lookupKey fs "code") = true
      · rw [if_pos hcode] at h
        simp at h
      · rw [if_neg hcode] at h
        simp only [hd, hj, Option.getD_some, pyDictGet, pyLen, pyIter] at h
        cases hm : ps.mapM fJobOf with
        | none => rw [hm] at h; simp at h
        | some js =>
            rw [hm] at h
            simp only [Option.some.injEq, FOutcome.success.injEq] at h
            exact h.1.symm

/-- Witness for C6 at a concrete successful response whose `count` is 42
and whose `job_post_list` is empty. -/
theorem claim_C6_wit :
    JValue.jnum 42 =
      (lookupKey [("count", JValue.jnum 42), ("job_post_list", JValue.jarr [])]
        "count").getD (.jnum ((List.length ([] : List JValue) : Nat) : Int)) :=
  claim_C6_thm.1
    [("code", .jnum 0),
      ("data", .jobj [("count", .jnum 42), ("job_post_list", .jarr [])])]
    [("count", .jnum 42), ("job_post_list", .jarr [])] [] (.jnum 42) []
    rfl rfl rfl
